import Mathlib

/-!
Verification of the monitoring/logging demo program (`src/main.cpp`).

The program consists of validated arithmetic (`dividir`, `raizCuadrada`),
an append-only logger, an in-memory tally (`SystemMonitor`), a batch
runner (`procesarListaNumeros`) and a fixed demonstration `main`.

Doubles are modelled as exact rationals (all operands in the program are
small integer literals, and the claims speak about exact real quotients);
the square root is modelled over the reals.  The log is modelled as the
list of (level, message) entries appended, timestamps omitted (they carry
no program logic).
-/

namespace Practica9

/-- Error kinds of the exception hierarchy of `main.cpp`:
`DivisionByZeroException`, `NegativeNumberException` (both below
`MathException`) and `InvalidInputException` (declared, never thrown). -/
inductive CppError where
  | divisionByZero
  | negativeNumber
  | invalidInput
  deriving DecidableEq, Repr

/-- The `what()` message of each exception, from the constructors in
`main.cpp` lines 37-69. -/
def CppError.what : CppError → String
  | .divisionByZero => "Error: División entre cero detectada."
  | .negativeNumber => "Error: Número negativo no permitido en esta operación."
  | .invalidInput => "Error: Entrada no numérica detectada."

/-- Embeds `double dividir(double a, double b)` (`main.cpp` lines 276-284):
`if (b == 0) throw DivisionByZeroException(); if (a < 0 || b < 0) throw
NegativeNumberException(); return a / b;`. -/
def dividir (a b : ℚ) : Except CppError ℚ :=
  if b = 0 then .error .divisionByZero
  else if a < 0 ∨ b < 0 then .error .negativeNumber
  else .ok (a / b)

/-- Embeds `double raizCuadrada(double num)` (`main.cpp` lines 288-294):
`if (num < 0) throw NegativeNumberException(); return sqrt(num);`. -/
noncomputable def raizCuadrada (num : ℝ) : Except CppError ℝ :=
  if num < 0 then .error .negativeNumber else .ok (Real.sqrt num)

/-- Log levels of `Logger::LogLevel` (`main.cpp` lines 103-115). -/
inductive LogLevel where
  | INFO
  | WARNING
  | ERROR
  | CRITICAL
  | DEBUG
  deriving DecidableEq, Repr

/-- One appended log line: level and message (the timestamp written by
`Logger::log` carries no program logic and is omitted). -/
structure LogEntry where
  level : LogLevel
  message : String
  deriving DecidableEq, Repr

/-- Method `Logger::log` appends one line to the log file
(`main.cpp` lines 142-169); the log state is the list of lines appended. -/
def Logger.log (st : List LogEntry) (level : LogLevel) (message : String) :
    List LogEntry :=
  st ++ [⟨level, message⟩]

/-- Method `Logger::logException` (`main.cpp` lines 172-176): one ERROR line
with "Excepción capturada: " prepended to the exception message. -/
def Logger.logException (st : List LogEntry) (e : CppError) : List LogEntry :=
  Logger.log st .ERROR ("Excepción capturada: " ++ e.what)

/-- The state of `SystemMonitor` (`main.cpp` lines 203-268): three
`int` counters. -/
structure SystemMonitor where
  totalOperations : ℤ
  successfulOperations : ℤ
  failedOperations : ℤ
  deriving DecidableEq, Repr

/-- The constructor initialises all three counters to 0
(`main.cpp` lines 218-220). -/
def SystemMonitor.init : SystemMonitor := ⟨0, 0, 0⟩

/-- Method `SystemMonitor::recordSuccess` (`main.cpp` lines 223-229):
`totalOperations++; successfulOperations++;`. -/
def SystemMonitor.recordSuccess (m : SystemMonitor) : SystemMonitor :=
  { m with totalOperations := m.totalOperations + 1
           successfulOperations := m.successfulOperations + 1 }

/-- Method `SystemMonitor::recordFailure` (`main.cpp` lines 232-238):
`totalOperations++; failedOperations++;`. -/
def SystemMonitor.recordFailure (m : SystemMonitor) : SystemMonitor :=
  { m with totalOperations := m.totalOperations + 1
           failedOperations := m.failedOperations + 1 }

/-- An abstract call to the monitor: the only two mutating operations. -/
inductive MonitorCall where
  | success
  | failure
  deriving DecidableEq, Repr

/-- Apply one monitor call. -/
def MonitorCall.apply (m : SystemMonitor) : MonitorCall → SystemMonitor
  | .success => m.recordSuccess
  | .failure => m.recordFailure

/-- Apply a finite sequence of monitor calls in order. -/
def applyCalls (calls : List MonitorCall) (m : SystemMonitor) : SystemMonitor :=
  calls.foldl MonitorCall.apply m

/-- Helper: every monitor call preserves `total = successes + failures`. -/
lemma applyCalls_invariant (calls : List MonitorCall) (m : SystemMonitor)
    (h : m.totalOperations = m.successfulOperations + m.failedOperations) :
    (applyCalls calls m).totalOperations =
      (applyCalls calls m).successfulOperations +
        (applyCalls calls m).failedOperations := by
  induction calls generalizing m with
  | nil => exact h
  | cons c rest ih =>
    cases c <;>
      · apply ih
        simp [MonitorCall.apply, SystemMonitor.recordSuccess,
          SystemMonitor.recordFailure, h]
        omega

/-! Rendering of doubles as C++ does it.  `std::to_string(double)` uses
fixed notation with 6 fractional digits; an `ostream` with default flags
(as in `Logger::logMetrics`) uses `%g`-style formatting with 6 significant
digits, stripping trailing zeros.  Both are modelled over exact rationals. -/

/-- Left-pad a digit string with zeros to length `k`. -/
def padZeros (k : ℕ) (s : String) : String :=
  String.mk (List.replicate (k - s.length) '0') ++ s

/-- Drop trailing zero characters. -/
def stripTrailingZeros (s : String) : String :=
  String.mk (s.data.reverse.dropWhile (fun c => c == '0')).reverse

/-- Base-10 logarithm of a natural number (0 for inputs below 10), by
fuel recursion so that it reduces in the kernel. -/
def natLog10Aux : ℕ → ℕ → ℕ
  | 0, _ => 0
  | fuel + 1, n => if n < 10 then 0 else natLog10Aux fuel (n / 10) + 1

/-- Base-10 logarithm of a natural number. -/
def natLog10 (n : ℕ) : ℕ :=
  natLog10Aux n n

/-- Floor of the base-10 logarithm of `|q|` (for `q ≠ 0`): the unique `e`
with `10 ^ e ≤ |q| < 10 ^ (e + 1)`. -/
def qLog10 (q : ℚ) : ℤ :=
  let n := q.num.natAbs
  let d := q.den
  if d ≤ n then (natLog10 (n / d) : ℤ)
  else -((natLog10 ((d - 1) / n) : ℤ) + 1)

/-- Round `|q| * 10 ^ k` (`k` possibly negative) to the nearest natural
number (halves rounded up), computed on the canonical numerator and
denominator of `q` so that it evaluates inside the kernel. -/
def scaleRound (q : ℚ) (k : ℤ) : ℕ :=
  if 0 ≤ k then
    (2 * q.num.natAbs * 10 ^ k.toNat + q.den) / (2 * q.den)
  else
    (2 * q.num.natAbs + q.den * 10 ^ (-k).toNat) /
      (2 * (q.den * 10 ^ (-k).toNat))

/-- Fixed-point digit string of a nonnegative scaled integer `n`
representing the value `n / 10 ^ k`, with exactly `k` fractional digits. -/
def digitsFixed (k : ℕ) (n : ℕ) : String :=
  toString (n / 10 ^ k) ++
    (if k = 0 then "" else "." ++ padZeros k (toString (n % 10 ^ k)))

/-- Rendering of a double by `std::to_string` (`%f`, 6 fractional
digits), used for the batch runner's log messages. -/
def cppToString6 (q : ℚ) : String :=
  (if q < 0 then "-" else "") ++ digitsFixed 6 (scaleRound q 6)

/-- Rendering of a positive double by `operator<<` on a stream with
default flags: `%g` with precision 6 — six significant digits, fixed
notation when the exponent is in `[-4, 6)`, scientific otherwise,
trailing zeros stripped. -/
def cppDefaultPos (q : ℚ) : String :=
  let e0 := qLog10 q
  let n0 := scaleRound q (5 - e0)
  let e := if n0 = 10 ^ 6 then e0 + 1 else e0
  let n := if n0 = 10 ^ 6 then 10 ^ 5 else n0
  if -4 ≤ e ∧ e < 6 then
    let k := (5 - e).toNat
    let fs := stripTrailingZeros (padZeros k (toString (n % 10 ^ k)))
    toString (n / 10 ^ k) ++ (if fs = "" then "" else "." ++ fs)
  else
    let ms := stripTrailingZeros (padZeros 5 (toString (n % 10 ^ 5)))
    toString (n / 10 ^ 5) ++ (if ms = "" then "" else "." ++ ms) ++
      "e" ++ (if e < 0 then "-" else "+") ++ padZeros 2 (toString e.natAbs)

/-- Rendering of a double by `operator<<` on a stream with default
flags, any sign. -/
def cppDefault (q : ℚ) : String :=
  if q = 0 then "0"
  else if q < 0 then "-" ++ cppDefaultPos (-q)
  else cppDefaultPos q

/-- The success rate computed inside `Logger::logMetrics`
(`main.cpp` line 189): `totalOps > 0 ? successOps * 100.0 / totalOps : 0`. -/
def tasaExito (totalOps successOps : ℤ) : ℚ :=
  if 0 < totalOps then (successOps : ℚ) * 100 / (totalOps : ℚ) else 0

/-- The message string built by `Logger::logMetrics`
(`main.cpp` lines 179-193); the rate is written by `<<` on a default
stream, so at default precision. -/
def logMetricsMessage (totalOps successOps failedOps : ℤ) : String :=
  "Métricas - Total: " ++ toString totalOps ++
    " | Exitosas: " ++ toString successOps ++
    " | Fallidas: " ++ toString failedOps ++
    " | Tasa de éxito: " ++ cppDefault (tasaExito totalOps successOps) ++ "%"

/-- Method `Logger::logMetrics`: builds the metrics message and logs it
once at INFO level. -/
def Logger.logMetrics (st : List LogEntry) (totalOps successOps failedOps : ℤ) :
    List LogEntry :=
  Logger.log st .INFO (logMetricsMessage totalOps successOps failedOps)

/-- Modelled from the spec: the rate rendering the spec claims for
`logMetrics` — "a percentage with two-decimal precision", i.e. fixed
notation with exactly two digits after the decimal point. -/
def specTwoDecimal (q : ℚ) : String :=
  (if q < 0 then "-" else "") ++ digitsFixed 2 (scaleRound q 2)

/-- Modelled from the spec: the metrics line as the spec describes it,
with the success rate rendered at two-decimal precision. -/
def specLogMetricsMessage (totalOps successOps failedOps : ℤ) : String :=
  "Métricas - Total: " ++ toString totalOps ++
    " | Exitosas: " ++ toString successOps ++
    " | Fallidas: " ++ toString failedOps ++
    " | Tasa de éxito: " ++ specTwoDecimal (tasaExito totalOps successOps) ++ "%"

/-- The DEBUG line announcing an attempt, written at the top of each batch
iteration (`main.cpp` line 320): `"Procesando operación: " +
to_string(a) + " / " + to_string(b)`. -/
def lineaDebug (p : ℚ × ℚ) : LogEntry :=
  ⟨.DEBUG, "Procesando operación: " ++ cppToString6 p.1 ++ " / " ++ cppToString6 p.2⟩

/-- One iteration of the loop body of `procesarListaNumeros`
(`main.cpp` lines 311-370): log the DEBUG attempt line, run `dividir`;
on success log the result at INFO and `recordSuccess`; on any exception
log it via `logException` and `recordFailure`.  Returns the new tally and
the entries appended this iteration. -/
def pasoOperacion (m : SystemMonitor) (a b : ℚ) : SystemMonitor × List LogEntry :=
  match dividir a b with
  | .ok r =>
    (m.recordSuccess,
      [lineaDebug (a, b),
        ⟨.INFO, "Operación exitosa. Resultado: " ++ cppToString6 r⟩])
  | .error e =>
    (m.recordFailure,
      [lineaDebug (a, b), ⟨.ERROR, "Excepción capturada: " ++ e.what⟩])

/-- The loop of `procesarListaNumeros` over the remaining pairs, in
sequence order. -/
def bucleOperaciones : List (ℚ × ℚ) → SystemMonitor → SystemMonitor × List LogEntry
  | [], m => (m, [])
  | (a, b) :: resto, m =>
    let paso := pasoOperacion m a b
    let sigue := bucleOperaciones resto paso.1
    (sigue.1, paso.2 ++ sigue.2)

/-- Embeds `procesarListaNumeros` (`main.cpp` lines 302-375): an opening
INFO line, the loop over all pairs, a closing INFO line.  (The fixed
500 ms pacing sleep has no effect on the modelled state.) -/
def procesarListaNumeros (pares : List (ℚ × ℚ)) (m : SystemMonitor) :
    SystemMonitor × List LogEntry :=
  let r := bucleOperaciones pares m
  (r.1,
    ⟨.INFO, "Iniciando procesamiento de lista de números"⟩ ::
      (r.2 ++ [⟨.INFO, "Procesamiento de lista completado"⟩]))

/-- Whether `dividir` succeeds on a pair. -/
def esExito (p : ℚ × ℚ) : Bool :=
  match dividir p.1 p.2 with
  | .ok _ => true
  | .error _ => false

/-- Whether a log entry is a DEBUG line. -/
def esDebug : LogEntry → Bool
  | ⟨.DEBUG, _⟩ => true
  | _ => false

/-- The DEBUG entries of a log, in order. -/
def registroDebug (l : List LogEntry) : List LogEntry :=
  l.filter esDebug

/-- The fixed operand sequence `listaOperaciones` of `main`
(`main.cpp` lines 484-502). -/
def listaOperaciones : List (ℚ × ℚ) :=
  [(100, 5), (50, 0), (81, 9), (-10, 2), (200, 10), (7, 0), (144, 12), (-50, -5)]

/-- PRUEBA 1 of `main` (`main.cpp` lines 399-423): try `dividir 10 0`,
recording a success on a result and a failure on
`DivisionByZeroException`; any other exception escapes this `try`. -/
def prueba1 (m : SystemMonitor) : Except CppError SystemMonitor :=
  match dividir 10 0 with
  | .ok _ => .ok m.recordSuccess
  | .error .divisionByZero => .ok m.recordFailure
  | .error e => .error e

/-- PRUEBA 2 of `main` (`main.cpp` lines 426-450): try `dividir (-5) 2`,
recording a failure on `NegativeNumberException` only. -/
def prueba2 (m : SystemMonitor) : Except CppError SystemMonitor :=
  match dividir (-5) 2 with
  | .ok _ => .ok m.recordSuccess
  | .error .negativeNumber => .ok m.recordFailure
  | .error e => .error e

/-- PRUEBA 3 of `main` (`main.cpp` lines 453-479): try `dividir 100 5`,
catching every exception. -/
def prueba3 (m : SystemMonitor) : Except CppError SystemMonitor :=
  match dividir 100 5 with
  | .ok _ => .ok m.recordSuccess
  | .error _ => .ok m.recordFailure

/-- The tally thread of `main` (`main.cpp` lines 383-533): the three
PRUEBA trials followed by the batch over `listaOperaciones`, all on the
one monitor constructed at the top of `main`; an uncaught exception would
reach the outer handler and end the run. -/
def mainTally : Except CppError SystemMonitor := do
  let m1 ← prueba1 SystemMonitor.init
  let m2 ← prueba2 m1
  let m3 ← prueba3 m2
  pure (procesarListaNumeros listaOperaciones m3).1

end Practica9

open Practica9

/-- C2: for every `a` and every `b` with `b = 0`, `dividir a b` fails with
the division-by-zero error, regardless of `a` — the zero check precedes the
negative-operand check. -/
theorem dividir_zero_divisor (a b : ℚ) (hb : b = 0) :
    dividir a b = .error .divisionByZero := by
  simp [dividir, hb]

/-- Witness for C2 at `a = -5, b = 0`: the divisor-zero error fires even
when `a < 0`. -/
theorem dividir_zero_divisor_witness :
    dividir (-5) 0 = .error .divisionByZero :=
  dividir_zero_divisor (-5) 0 rfl

/-- C3: for every `a`, `b` with `b ≠ 0` and `a < 0 ∨ b < 0`, `dividir a b`
fails with the negative-operand error. -/
theorem dividir_negative_operand (a b : ℚ) (hb : b ≠ 0)
    (hneg : a < 0 ∨ b < 0) :
    dividir a b = .error .negativeNumber := by
  simp [dividir, hb, hneg]

/-- Witness for C3 at `a = -10, b = 2`. -/
theorem dividir_negative_operand_witness :
    dividir (-10) 2 = .error .negativeNumber :=
  dividir_negative_operand (-10) 2 (by norm_num) (by norm_num)

/-- C4: for every `a ≥ 0` and `b > 0`, `dividir a b` succeeds and returns
the exact quotient `a / b`. -/
theorem dividir_ok (a b : ℚ) (ha : 0 ≤ a) (hb : 0 < b) :
    dividir a b = .ok (a / b) := by
  have hb0 : b ≠ 0 := ne_of_gt hb
  have hnot : ¬(a < 0 ∨ b < 0) := by
    push_neg
    exact ⟨ha, le_of_lt hb⟩
  simp [dividir, hb0, hnot]

/-- Witness for C4 at `a = 100, b = 5`: the quotient is `20`. -/
theorem dividir_ok_witness :
    dividir 100 5 = .ok 20 ∧ (100 : ℚ) / 5 = 20 := by
  refine ⟨?_, by norm_num⟩
  have h := dividir_ok 100 5 (by norm_num) (by norm_num)
  rw [h]
  norm_num

/-- C6: starting from the initial tally `{0, 0, 0}`, after any finite
sequence of `recordSuccess` / `recordFailure` calls the tally satisfies
`total = successes + failures`. -/
theorem tally_invariant (calls : List MonitorCall) :
    (applyCalls calls SystemMonitor.init).totalOperations =
      (applyCalls calls SystemMonitor.init).successfulOperations +
        (applyCalls calls SystemMonitor.init).failedOperations :=
  applyCalls_invariant calls SystemMonitor.init rfl

/-- C10: `recordSuccess` increments `total` and `successes` by exactly 1
and leaves `failures` unchanged; `recordFailure` increments `total` and
`failures` by exactly 1 and leaves `successes` unchanged; neither
operation ever decreases any of the three counters. -/
theorem record_frame (m : SystemMonitor) :
    (m.recordSuccess.totalOperations = m.totalOperations + 1 ∧
      m.recordSuccess.successfulOperations = m.successfulOperations + 1 ∧
      m.recordSuccess.failedOperations = m.failedOperations) ∧
    (m.recordFailure.totalOperations = m.totalOperations + 1 ∧
      m.recordFailure.failedOperations = m.failedOperations + 1 ∧
      m.recordFailure.successfulOperations = m.successfulOperations) ∧
    (∀ c : MonitorCall,
      m.totalOperations ≤ (c.apply m).totalOperations ∧
      m.successfulOperations ≤ (c.apply m).successfulOperations ∧
      m.failedOperations ≤ (c.apply m).failedOperations) := by
  refine ⟨⟨rfl, rfl, rfl⟩, ⟨rfl, rfl, rfl⟩, ?_⟩
  intro c
  cases c <;>
    simp [MonitorCall.apply, SystemMonitor.recordSuccess,
      SystemMonitor.recordFailure]

/-- C5: for every `x < 0`, `raizCuadrada x` fails with the
negative-operand error; for every `x ≥ 0` it succeeds, its result is
nonnegative, and the result squared is exactly `x`. -/
theorem raizCuadrada_spec (x : ℝ) :
    (x < 0 → raizCuadrada x = .error .negativeNumber) ∧
    (0 ≤ x → raizCuadrada x = .ok (Real.sqrt x) ∧
      0 ≤ Real.sqrt x ∧ Real.sqrt x ^ 2 = x) := by
  constructor
  · intro h
    simp [raizCuadrada, h]
  · intro h
    refine ⟨?_, Real.sqrt_nonneg x, Real.sq_sqrt h⟩
    simp [raizCuadrada, not_lt.mpr h]

/-- Witness for C5 at `x = -1` (fails) and `x = 4` (succeeds, with a
nonnegative result squaring back to 4). -/
theorem raizCuadrada_spec_witness :
    raizCuadrada (-1) = .error .negativeNumber ∧
    (raizCuadrada 4 = .ok (Real.sqrt 4) ∧ 0 ≤ Real.sqrt 4 ∧
      Real.sqrt 4 ^ 2 = 4) :=
  ⟨(raizCuadrada_spec (-1)).1 (by norm_num),
    (raizCuadrada_spec 4).2 (by norm_num)⟩

/-- C1: running the batch runner on the fixed operand sequence from a
zero tally yields `{total 8, successes 4, failures 4}`; `dividir`
succeeds exactly on `(100,5), (81,9), (200,10), (144,12)` and fails on
the two zero-divisor pairs with the division-by-zero error and on the two
negative-operand pairs with the negative-operand error. -/
theorem batch_scenario_D :
    (procesarListaNumeros listaOperaciones SystemMonitor.init).1 =
      ⟨8, 4, 4⟩ ∧
    listaOperaciones.map (fun p => dividir p.1 p.2) =
      [.ok 20, .error .divisionByZero, .ok 9, .error .negativeNumber,
        .ok 20, .error .divisionByZero, .ok 12, .error .negativeNumber] := by
  constructor
  · decide
  · norm_num [listaOperaciones, dividir]

/-- Helper: the tally leaving one loop iteration is `recordSuccess` when
`dividir` succeeds on the pair and `recordFailure` otherwise. -/
lemma pasoOperacion_fst (m : SystemMonitor) (a b : ℚ) :
    (pasoOperacion m a b).1 =
      if esExito (a, b) then m.recordSuccess else m.recordFailure := by
  cases hd : dividir a b <;> simp [pasoOperacion, esExito, hd]

/-- Helper: extracting DEBUG lines commutes with appending logs. -/
lemma registroDebug_append (l1 l2 : List LogEntry) :
    registroDebug (l1 ++ l2) = registroDebug l1 ++ registroDebug l2 := by
  simp [registroDebug, List.filter_append]

/-- Helper: an INFO entry contributes no DEBUG line. -/
lemma registroDebug_cons_info (s : String) (l : List LogEntry) :
    registroDebug (⟨LogLevel.INFO, s⟩ :: l) = registroDebug l := by
  simp [registroDebug, List.filter_cons, esDebug]

/-- Helper: each loop iteration emits exactly one DEBUG line, the
attempt announcement for its pair. -/
lemma pasoOperacion_debug (m : SystemMonitor) (a b : ℚ) :
    registroDebug (pasoOperacion m a b).2 = [lineaDebug (a, b)] := by
  cases hd : dividir a b <;>
    simp [pasoOperacion, hd, registroDebug, lineaDebug, esDebug,
      List.filter_cons]

/-- Helper: the loop adds the number of pairs to the total counter. -/
lemma bucle_total (pares : List (ℚ × ℚ)) (m : SystemMonitor) :
    (bucleOperaciones pares m).1.totalOperations =
      m.totalOperations + pares.length := by
  induction pares generalizing m with
  | nil => simp [bucleOperaciones]
  | cons p resto ih =>
    obtain ⟨a, b⟩ := p
    simp only [bucleOperaciones]
    rw [ih, pasoOperacion_fst]
    rcases h : esExito (a, b) <;>
      simp [h, SystemMonitor.recordSuccess, SystemMonitor.recordFailure,
        List.length_cons] <;>
      omega

/-- Helper: the loop adds the number of successful pairs to the success
counter. -/
lemma bucle_exitosas (pares : List (ℚ × ℚ)) (m : SystemMonitor) :
    (bucleOperaciones pares m).1.successfulOperations =
      m.successfulOperations + (pares.countP esExito : ℤ) := by
  induction pares generalizing m with
  | nil => simp [bucleOperaciones]
  | cons p resto ih =>
    obtain ⟨a, b⟩ := p
    simp only [bucleOperaciones, List.countP_cons]
    rw [ih, pasoOperacion_fst]
    rcases h : esExito (a, b) <;>
      simp [h, SystemMonitor.recordSuccess, SystemMonitor.recordFailure]
    all_goals omega

/-- Helper: the loop adds the number of failing pairs to the failure
counter. -/
lemma bucle_fallidas (pares : List (ℚ × ℚ)) (m : SystemMonitor) :
    (bucleOperaciones pares m).1.failedOperations =
      m.failedOperations + (pares.countP (fun p => !esExito p) : ℤ) := by
  induction pares generalizing m with
  | nil => simp [bucleOperaciones]
  | cons p resto ih =>
    obtain ⟨a, b⟩ := p
    simp only [bucleOperaciones, List.countP_cons]
    rw [ih, pasoOperacion_fst]
    rcases h : esExito (a, b) <;>
      simp [h, SystemMonitor.recordSuccess, SystemMonitor.recordFailure]
    all_goals omega

/-- Helper: the DEBUG lines emitted by the loop are exactly the attempt
lines of the pairs, in sequence order. -/
lemma bucle_debug (pares : List (ℚ × ℚ)) (m : SystemMonitor) :
    registroDebug (bucleOperaciones pares m).2 = pares.map lineaDebug := by
  induction pares generalizing m with
  | nil => simp [bucleOperaciones, registroDebug]
  | cons p resto ih =>
    obtain ⟨a, b⟩ := p
    simp only [bucleOperaciones, List.map_cons]
    rw [registroDebug_append, pasoOperacion_debug, ih]
    simp

/-- C8: for every input sequence and starting tally, the batch runner
records exactly one outcome per pair — the total grows by the sequence
length, successes by the number of pairs on which `dividir` succeeds,
failures by the rest, so no error aborts the batch — and its DEBUG
attempt lines are exactly the pairs in sequence order. -/
theorem batch_one_outcome_per_pair (pares : List (ℚ × ℚ)) (m : SystemMonitor) :
    (procesarListaNumeros pares m).1.totalOperations =
      m.totalOperations + pares.length ∧
    (procesarListaNumeros pares m).1.successfulOperations =
      m.successfulOperations + (pares.countP esExito : ℤ) ∧
    (procesarListaNumeros pares m).1.failedOperations =
      m.failedOperations + (pares.countP (fun p => !esExito p) : ℤ) ∧
    registroDebug (procesarListaNumeros pares m).2 = pares.map lineaDebug := by
  refine ⟨?_, ?_, ?_, ?_⟩
  · simpa [procesarListaNumeros] using bucle_total pares m
  · simpa [procesarListaNumeros] using bucle_exitosas pares m
  · simpa [procesarListaNumeros] using bucle_fallidas pares m
  · simp only [procesarListaNumeros]
    rw [registroDebug_cons_info, registroDebug_append,
      registroDebug_cons_info]
    simpa [registroDebug] using bucle_debug pares m

/-- C9: the demonstration run of `main` — the three PRUEBA trials 10/0,
-5/2, 100/5 followed by the 8-pair batch on the same monitor — ends with
the tally `{total 11, successes 5, failures 6}`, which is not the
batch-only tally `{8, 4, 4}`. -/
theorem main_final_tally :
    mainTally = .ok ⟨11, 5, 6⟩ ∧
    (⟨11, 5, 6⟩ : SystemMonitor) ≠ ⟨8, 4, 4⟩ :=
  ⟨rfl, by decide⟩

/-- C7 (amended): `logMetrics` appends exactly one INFO line built from
the three counts; the success rate in it is `success * 100 / total` for
positive `total` and `0` otherwise, so no division by zero occurs and a
zero total logs the rate `0` — but the rate is rendered at the stream's
default precision, not with two-decimal formatting. -/
theorem logMetrics_one_info_line (st : List LogEntry)
    (totalOps successOps failedOps : ℤ) :
    Logger.logMetrics st totalOps successOps failedOps =
      st ++ [⟨.INFO, logMetricsMessage totalOps successOps failedOps⟩] ∧
    (Logger.logMetrics st totalOps successOps failedOps).length =
      st.length + 1 ∧
    (totalOps = 0 → tasaExito totalOps successOps = 0 ∧
      cppDefault (tasaExito totalOps successOps) = "0") := by
  refine ⟨rfl, by simp [Logger.logMetrics, Logger.log], fun h => ?_⟩
  subst h
  have h0 : tasaExito 0 successOps = 0 := by simp [tasaExito]
  refine ⟨h0, ?_⟩
  rw [h0]
  decide

/-- Witness for C7 at `st = [], total = 0, success = 5, failed = 7`. -/
theorem logMetrics_one_info_line_witness :
    Logger.logMetrics [] 0 5 7 = [⟨.INFO, logMetricsMessage 0 5 7⟩] ∧
    cppDefault (tasaExito 0 5) = "0" := by
  have h := logMetrics_one_info_line [] 0 5 7
  exact ⟨by simpa using h.1, (h.2.2 rfl).2⟩

/-- C7 counterexample: at `total = 4, success = 3, failed = 1` the code
logs the rate as `75%` (default stream precision in `logMetrics`), not as
the two-decimal `75.00%` the spec prescribes, so the logged line differs
from the spec-prescribed line. -/
theorem logMetrics_not_two_decimal :
    logMetricsMessage 4 3 1 =
      "Métricas - Total: 4 | Exitosas: 3 | Fallidas: 1 | Tasa de éxito: 75%" ∧
    specLogMetricsMessage 4 3 1 =
      "Métricas - Total: 4 | Exitosas: 3 | Fallidas: 1 | Tasa de éxito: 75.00%" ∧
    logMetricsMessage 4 3 1 ≠ specLogMetricsMessage 4 3 1 := by
  have h75 : tasaExito 4 3 = 75 := by norm_num [tasaExito]
  refine ⟨?_, ?_, ?_⟩
  · simp only [logMetricsMessage, h75]
    decide
  · simp only [specLogMetricsMessage, h75]
    decide
  · simp only [logMetricsMessage, specLogMetricsMessage, h75]
    decide
